import Mathlib

/-!
Shallow embedding of the DS1307 sigrok protocol decoder (src/pd.py) and proofs
about its specification claims.

Conventions of the embedding:
- Python integers become `Nat` (bytes, sample numbers) or `Int` (fields that
  are initialized to -1, such as the register pointer and date-time fields).
- Python operations that can raise (list indexing, `getattr` dispatch,
  `len()` on a non-sequence, dict lookup) return `Except String α`; the error
  string names the Python exception class that the source would raise.
- Python list values that can hold a mix of strings and integers (the
  arguments of `Decoder.compose_annot`) are modelled by the `PyVal` sum type.
-/

/-- A Python value that may appear in the annotation-composition lists of
`Decoder.compose_annot`: either a string or an integer. -/
inductive PyVal where
  | s (v : String)
  | i (v : Int)
deriving Repr, DecidableEq

/-- Python `"{}".format(v)`: stringification of a `PyVal`. -/
def pyStr : PyVal → String
  | .s v => v
  | .i v => toString v

/-- Wrap a list of strings as `PyVal`s (the usual, well-typed call shape). -/
def S (l : List String) : List PyVal := l.map PyVal.s

/-- Python `str.strip()` with no argument: remove leading and trailing
whitespace (defined over the character list so that it evaluates inside the
kernel). -/
def pyStrip (s : String) : String :=
  String.mk
    (((s.data.dropWhile Char.isWhitespace).reverse.dropWhile
        Char.isWhitespace).reverse)

/-- Python `str[:n]` (defined over the character list). -/
def pyTake (s : String) (n : Nat) : String := String.mk (s.data.take n)

/-- Python `str.upper()` (defined over the character list). -/
def pyUpper (s : String) : String := String.mk (s.data.map Char.toUpper)

/-- Python `len(v)`: defined for strings, raises `TypeError` on integers.
This is what `list.sort(key=len)` applies to every list element. -/
def pyLen : PyVal → Except String Nat
  | .s v => .ok v.length
  | .i _ => .error "TypeError: object of type int has no len"

/-- Key extraction of `annots.sort(key=len, ...)`: Python computes `len` of
every element up front, raising `TypeError` at the first integer element. -/
def strListOf : List PyVal → Except String (List String)
  | [] => .ok []
  | .s t :: rest =>
      match strListOf rest with
      | .ok ts => .ok (t :: ts)
      | .error e => .error e
  | .i _ :: _ => .error "TypeError: object of type int has no len"

/-- The comparison used by `annots.sort(key=len, reverse=True)`:
longer strings first. -/
def lenDescRel (a b : String) : Prop := b.length ≤ a.length

instance : DecidableRel lenDescRel := fun a b => Nat.decLe b.length a.length

instance : IsTotal String lenDescRel :=
  ⟨fun a b => Or.symm (Nat.le_total a.length b.length)⟩

instance : IsTrans String lenDescRel :=
  ⟨fun _ _ _ h1 h2 => Nat.le_trans h2 h1⟩

/-- Python `list.sort(key=len, reverse=True)`: stable sort, longest first.
Stable insertion sort: an element is inserted before the first element of
strictly smaller length, i.e. after all earlier elements of equal length. -/
def sortLenDesc (l : List String) : List String :=
  List.insertionSort lenDescRel l

/-- `ann_label[-2:]` — the last two items of the label list. -/
def lastTwo (l : List PyVal) : List PyVal := l.drop (l.length - 2)

/-- The inner `for unit in ann_unit` loop of `compose_annot`: `ann_item`
accumulates each unit suffix and every intermediate value is appended. -/
def unitAccum : String → List PyVal → List String
  | _, [] => []
  | b, u :: us =>
      let b2 := b ++ pyStr u
      b2 :: unitAccum b2 us

/-- The `for val in ann_value` loop body of `compose_annot` for one composed
label `ann`: appends `"ann: val"` and then the unit-enriched variants. -/
def valueItems (ann : String) (unit : List PyVal) : List PyVal → List String
  | [] => []
  | v :: vs =>
      let b := ann ++ ": " ++ pyStr v
      (b :: unitAccum b unit) ++ valueItems ann unit vs

/-- The `for lbl in ann_label` loop of `compose_annot` for one action prefix:
`ann = "{} {}".format(act, lbl).strip()`, then the value loop; if the value
list is empty, the bare `ann` is appended instead. -/
def labelItems (act : PyVal) (value unit : List PyVal) : List PyVal → List PyVal
  | [] => []
  | lbl :: ls =>
      let ann := pyStrip (pyStr act ++ " " ++ pyStr lbl)
      (if value.isEmpty then [PyVal.s ann]
       else (valueItems ann unit value).map PyVal.s)
        ++ labelItems act value unit ls

/-- The outer `for act in ann_action` loop of `compose_annot`. -/
def actionItems (label value unit : List PyVal) : List PyVal → List PyVal
  | [] => []
  | a :: rest => labelItems a value unit label ++ actionItems label value unit rest

/-- The unsorted annotation list built by `Decoder.compose_annot` before the
final sort: all composed items, then (when values are present) the raw last
two label items. An empty action list is replaced by `[""]`. -/
def composeCore (label value unit action : List PyVal) : List PyVal :=
  let action2 := if action.isEmpty then [PyVal.s ""] else action
  actionItems label value unit action2
    ++ (if value.isEmpty then [] else lastTwo label)

/-- `Decoder.compose_annot` (src/pd.py lines 285-367): composes the candidate
label list, then sorts it by length descending via `sort(key=len,
reverse=True)`.  The key computation applies `len` to every element and
raises `TypeError` when a raw integer label item reached the list. -/
def compose_annot (label value unit action : List PyVal) :
    Except String (List String) :=
  match strListOf (composeCore label value unit action) with
  | .ok l => .ok (sortLenDesc l)
  | .error e => .error e

/-- `bcd2int` helper. Modelled from the spec: the function is imported from
`common.srdhelper` (outside this repository's sources); the spec states
`bcdToInt(b) == (b>>4)*10 + (b & 0xF)`. -/
def bcd2int (b : Nat) : Nat := (b >>> 4) * 10 + (b &&& 0xf)

/-- Python `b & ~(1 << k)` for non-negative `b`: clear bit `k`. -/
def pyClearBit (b k : Nat) : Nat :=
  if b.testBit k then b - (1 <<< k) else b

/-- Python list indexing `l[i]` on a list of strings: negative indices count
from the end; out-of-range indices raise `IndexError`. -/
def pyIndex (l : List String) (i : Int) : Except String String :=
  let j := if i < 0 then i + l.length else i
  if 0 ≤ j ∧ j < l.length then .ok (l.getD j.toNat "")
  else .error "IndexError: list index out of range"

/-- `weekdays` tuple (src/pd.py lines 119-122). -/
def weekdaysList : List String :=
  ["Monday", "Tuesday", "Wednesday", "Thursday", "Friday",
   "Saturday", "Sunday"]

/-- `months` tuple (src/pd.py lines 124-128): index 0 is `"Unknown"`. -/
def monthsList : List String :=
  ["Unknown",
   "January", "February", "March", "April", "May", "June",
   "July", "August", "September", "October", "November", "December"]

/-- `rates` dict (src/pd.py lines 130-135), keyed by the two RS bits. -/
def ratesFn (code : Nat) : Nat :=
  if code = 0 then 1
  else if code = 1 then 4096
  else if code = 2 then 8192
  else 32768

/-- `radixes` dict (src/pd.py lines 113-117): radix option name to Python
format mask.  There is no `"Bin"` entry. -/
def radixes (r : String) : Option String :=
  if r = "Hex" then some "\x7b:#02x\x7d"
  else if r = "Dec" then some "\x7b:#d\x7d"
  else if r = "Oct" then some "\x7b:#o\x7d"
  else none

/-- The `values` tuple of the `radix` decoder option (src/pd.py line 239). -/
def radixOptionValues : List String := ["Hex", "Dec", "Oct"]

/-- The `values` tuple of the `date_format` decoder option (line 243). -/
def dateFormatOptionValues : List String := ["European", "American", "ANSI"]

/-- Application of one of the three radix format masks to a byte value,
mirroring Python `%`-free `str.format` semantics for these masks:
`"{:#02x}"` gives `0x`-prefixed lowercase hex (the width 2 never pads),
`"{:#d}"` gives plain decimal (`#` has no effect for `d`),
`"{:#o}"` gives `0o`-prefixed octal. -/
def applyRadixMask (mask : String) (n : Nat) : String :=
  if mask = "\x7b:#02x\x7d" then "0x" ++ String.mk (Nat.toDigits 16 n)
  else if mask = "\x7b:#d\x7d" then toString n
  else if mask = "\x7b:#o\x7d" then "0o" ++ String.mk (Nat.toDigits 8 n)
  else "?"

/-- Python `"{:0Nd}".format(i)`: zero-pad to total width `w`, with the minus
sign counted inside the width. -/
def pyZPad (w : Nat) (n : Int) : String :=
  let digits := toString n.natAbs
  if n < 0 then
    "-" ++ String.mk (List.replicate (w - 1 - digits.length) '0') ++ digits
  else
    String.mk (List.replicate (w - digits.length) '0') ++ digits

/-- `"{:02d}"`. -/
def pad2 (n : Int) : String := pyZPad 2 n

/-- `"{:04d}"`. -/
def pad4 (n : Int) : String := pyZPad 4 n

/-! Annotation index constants, computed exactly as the chained `range`
assignments of the `AnnAddrs`, `AnnRegs`, `AnnBits` and `AnnInfo` classes
(src/pd.py lines 73-107). -/

def AnnAddrs_SLAVE : Nat := 0

def AnnRegs_SECOND : Nat := 1
def AnnRegs_MINUTE : Nat := 2
def AnnRegs_HOUR : Nat := 3
def AnnRegs_WEEKDAY : Nat := 4
def AnnRegs_DAY : Nat := 5
def AnnRegs_MONTH : Nat := 6
def AnnRegs_YEAR : Nat := 7
def AnnRegs_CONTROL : Nat := 8
def AnnRegs_NVRAM : Nat := 9

def AnnBits_RESERVED : Nat := 10
def AnnBits_DATA : Nat := 11
def AnnBits_RS0 : Nat := 12
def AnnBits_RS1 : Nat := 13
def AnnBits_SQWE : Nat := 14
def AnnBits_OUT : Nat := 15
def AnnBits_AMPM : Nat := 16
def AnnBits_MODE : Nat := 17
def AnnBits_CH : Nat := 18
def AnnBits_SECOND : Nat := 19
def AnnBits_MINUTE : Nat := 20
def AnnBits_HOUR : Nat := 21
def AnnBits_WEEKDAY : Nat := 22
def AnnBits_DAY : Nat := 23
def AnnBits_MONTH : Nat := 24
def AnnBits_YEAR : Nat := 25
def AnnBits_NVRAM : Nat := 26

def AnnInfo_WARN : Nat := 27
def AnnInfo_BADADD : Nat := 28
def AnnInfo_CHECK : Nat := 29
def AnnInfo_WRITE : Nat := 30
def AnnInfo_READ : Nat := 31
def AnnInfo_DATETIME : Nat := 32
def AnnInfo_NVRAM : Nat := 33

/-- `addresses` dict (src/pd.py lines 152-154). -/
def addressesTab (i : Nat) : List String :=
  if i = AnnAddrs_SLAVE then ["Device address", "Address", "Add", "A"]
  else []

/-- `registers` dict (src/pd.py lines 156-166). -/
def registersTab (i : Nat) : List String :=
  if i = AnnRegs_SECOND then ["Seconds register", "Seconds", "Secs", "S"]
  else if i = AnnRegs_MINUTE then ["Minutes register", "Minutes", "Mins", "M"]
  else if i = AnnRegs_HOUR then ["Hours register", "Hours", "Hrs", "H"]
  else if i = AnnRegs_WEEKDAY then ["Weekdays register", "Weekdays", "W"]
  else if i = AnnRegs_DAY then ["Days register", "Days", "D"]
  else if i = AnnRegs_MONTH then ["Months register", "Months", "Mons", "M"]
  else if i = AnnRegs_YEAR then ["Years register", "Years", "Yrs", "Y"]
  else if i = AnnRegs_CONTROL then ["Control register", "Control", "Ctrl", "C"]
  else if i = AnnRegs_NVRAM then
    ["Non-volatile memory register", "NV-RAM", "NVR", "R"]
  else []

/-- `bits` dict (src/pd.py lines 168-185). -/
def bitsTab (i : Nat) : List String :=
  if i = AnnBits_RESERVED then ["Reserved bit", "Reserved", "Rsvd", "R"]
  else if i = AnnBits_DATA then ["Data bit", "Data", "D"]
  else if i = AnnBits_RS0 then ["Rate select bits", "Rate select", "Rate", "RS"]
  else if i = AnnBits_SQWE then ["SQW enable bit", "SQW enable", "SQWE", "SE", "S"]
  else if i = AnnBits_OUT then ["OUT bit", "OUT", "O"]
  else if i = AnnBits_AMPM then ["AM/PM bit", "AM/PM", "A/P", "A"]
  else if i = AnnBits_MODE then ["12/24 hours mode bit", "12/24 mode", "Mode", "M"]
  else if i = AnnBits_CH then ["Clock halt bit", "Clock halt", "CH", "H"]
  else if i = AnnBits_SECOND then ["Second bits", "Second", "Sec", "S"]
  else if i = AnnBits_MINUTE then ["Minute bits", "Minute", "Min", "M"]
  else if i = AnnBits_HOUR then ["Hour bits", "Hour", "Hr", "H"]
  else if i = AnnBits_WEEKDAY then ["Weekday bits", "Weekday", "WD", "W"]
  else if i = AnnBits_DAY then ["Day bits", "Day", "D"]
  else if i = AnnBits_MONTH then ["Month bits", "Month", "Mon", "M"]
  else if i = AnnBits_YEAR then ["Year bits", "Year", "Yr", "Y"]
  else if i = AnnBits_NVRAM then ["NVRAM", "RAM", "R"]
  else []

/-- `info` dict (src/pd.py lines 187-197). -/
def infoTab (i : Nat) : List String :=
  if i = AnnInfo_WARN then ["Warnings", "Warn", "W"]
  else if i = AnnInfo_BADADD then
    ["Uknown slave address", "Unknown address", "Uknown", "Unk", "U"]
  else if i = AnnInfo_CHECK then
    ["Slave presence check", "Slave check", "Check", "Chk", "C"]
  else if i = AnnInfo_WRITE then ["Write", "Wr", "W"]
  else if i = AnnInfo_READ then ["Read", "Rd", "R"]
  else if i = AnnInfo_DATETIME then ["Datetime", "Date", "D"]
  else if i = AnnInfo_NVRAM then ["Memory", "Mem", "M"]
  else []

/-- `Address.SLAVE` (src/pd.py line 31). -/
def Address_SLAVE : Nat := 0x68

/-- `NvRAM.MIN` (src/pd.py line 67). -/
def NvRAM_MIN : Int := 0x08

/-- `NvRAM.MAX` (src/pd.py line 67). -/
def NvRAM_MAX : Int := 0x3f

/-- One emitted annotation record: annotation row index, sample span and the
ordered candidate label list, as passed to `self.put`. -/
structure Annot where
  row : Nat
  ss : Nat
  es : Nat
  labels : List String
deriving Repr, DecidableEq

/-- The decoder options (src/pd.py lines 237-244), read-only configuration. -/
structure Options where
  radix : String
  start_weekday : String
  date_format : String
deriving Repr, DecidableEq

/-- Default options: radix Hex, start weekday Monday, European date format. -/
def oDef : Options :=
  { radix := "Hex", start_weekday := "Monday", date_format := "European" }

/-- The mutable instance state of `Decoder` (set up by `Decoder.reset`,
src/pd.py lines 258-279). -/
structure DS where
  ss : Nat
  es : Nat
  ssb : Nat
  ssd : Nat
  esd : Nat
  bits : List (Nat × Nat × Nat)
  bytes : List Nat
  write : Bool
  state : String
  addr : Nat
  reg : Int
  second : Int
  minute : Int
  hour : Int
  weekday : Int
  day : Int
  month : Int
  year : Int
deriving Repr, DecidableEq

/-- `Decoder.reset` (src/pd.py lines 258-279). -/
def reset0 : DS :=
  { ss := 0, es := 0, ssb := 0, ssd := 0, esd := 0,
    bits := [], bytes := [], write := true, state := "IDLE",
    addr := Address_SLAVE, reg := -1,
    second := -1, minute := -1, hour := -1, weekday := -1,
    day := -1, month := -1, year := -1 }

/-- Python `self.bits[i]`: indexing the accumulated bit-span cache. -/
def bitsAt (st : DS) (i : Nat) : Except String (Nat × Nat × Nat) :=
  match st.bits.get? i with
  | some x => .ok x
  | none => .error "IndexError: list index out of range"

/-- Python `self.bytes[i]`: indexing the byte cache. -/
def bytesAt (st : DS) (i : Nat) : Except String Nat :=
  match st.bytes.get? i with
  | some x => .ok x
  | none => .error "IndexError: list index out of range"

/-- `Decoder.put_data` (src/pd.py lines 369-376): an annotation spanning from
the start sample of `bit_start` to the end sample of `bit_stop`. Each cached
bit triple is `(bit, startsample, endsample)`. -/
def put_data (st : DS) (bit_start bit_stop : Nat) (row : Nat)
    (labels : List String) : Except String Annot := do
  let x ← bitsAt st bit_start
  let y ← bitsAt st bit_stop
  .ok ⟨row, x.2.1, y.2.2, labels⟩

/-- `Decoder.put_bit_reserve` (src/pd.py lines 388-396). -/
def put_bit_reserve (st : DS) (i : Nat) : Except String Annot := do
  let annots ← compose_annot (S (bitsTab AnnBits_RESERVED)) [] [] []
  let x ← bitsAt st i
  .ok ⟨AnnBits_RESERVED, x.2.1, x.2.2, annots⟩

/-- `Decoder.collect_data` (src/pd.py lines 407-414). -/
def collect_data (st : DS) (databyte : Nat) : DS :=
  if st.bytes.isEmpty then
    { st with esd := st.es, ssd := st.ss, bytes := [databyte] }
  else
    { st with esd := st.es, bytes := databyte :: st.bytes }

/-- `Decoder.clear_data` (src/pd.py lines 416-420). -/
def clear_data (st : DS) : DS :=
  { st with ssd := 0, esd := 0, bytes := [], bits := [] }

/-- `Decoder.format_data` (src/pd.py lines 422-424): dict lookup of the radix
mask (a `KeyError` if the option value is unknown), then mask application. -/
def format_data (o : Options) (data : Nat) : Except String String :=
  match radixes o.radix with
  | some mask => .ok (applyRadixMask mask data)
  | none => .error "KeyError: radix"

/-- `Decoder.format_action` (src/pd.py lines 426-429). -/
def format_action (st : DS) : List String :=
  infoTab (if st.write then AnnInfo_WRITE else AnnInfo_READ)

/-- `Decoder.check_addr` (src/pd.py lines 398-405).  On a matching address it
returns `True` with no output.  On a mismatch the source calls
`compose_annot(AnnInfo.BADADD, ann_value=self.format_data(self.addr))`:
the *integer* enumeration constant is passed as the label argument (not the
`info[...]` label list), and the formatted value is the *stored* address
`self.addr`, not the mismatching byte. -/
def check_addr (o : Options) (st : DS) (addr_slave : Nat) :
    Except String (Bool × List Annot) :=
  if addr_slave = Address_SLAVE then .ok (true, [])
  else do
    let v ← format_data o st.addr
    let annots ← compose_annot [PyVal.i (AnnInfo_BADADD : Int)] [PyVal.s v] [] []
    .ok (false, [⟨AnnInfo_BADADD, st.ssb, st.es, annots⟩])

/-- `Decoder.handle_addr` (src/pd.py lines 458-466). -/
def handle_addr (st : DS) : Except String (DS × List Annot) :=
  if st.bytes.isEmpty then .ok (st, [])
  else do
    let b ← bytesAt st 0
    let st2 := { st with addr := b }
    let annots ← compose_annot (S (addressesTab AnnAddrs_SLAVE)) [] [] []
    .ok (clear_data st2, [⟨AnnAddrs_SLAVE, st2.ssd, st2.esd, annots⟩])

/-- `Decoder.handle_nodata` (src/pd.py lines 468-472). -/
def handle_nodata (st : DS) : Except String (List Annot) := do
  let annots ← compose_annot (S (infoTab AnnInfo_CHECK)) [] [] []
  .ok [⟨AnnInfo_CHECK, st.ssb, st.es, annots⟩]

/-- `Decoder.handle_reg_0x00` (src/pd.py lines 489-506): seconds register. -/
def handle_reg_0x00 (st : DS) : Except String (DS × List Annot) := do
  let b ← bytesAt st 0
  let ch : Int := if b &&& (1 <<< 7) ≠ 0 then 1 else 0
  let ch_l := if ch ≠ 0 then "Halt" else "Run"
  let ch_s := pyUpper (pyTake ch_l 1)
  let a1 ← compose_annot (S (bitsTab AnnBits_CH)) [.i ch, .s ch_l, .s ch_s] [] []
  let p1 ← put_data st 7 7 AnnBits_CH a1
  let second : Int := (bcd2int (pyClearBit b 7) : Int)
  let a2 ← compose_annot (S (bitsTab AnnBits_SECOND)) [.i second] [] []
  let p2 ← put_data st 6 0 AnnBits_SECOND a2
  let a3 ← compose_annot (S (registersTab AnnRegs_SECOND)) [] [] (S (format_action st))
  .ok ({ st with second := second },
       [p1, p2, ⟨AnnRegs_SECOND, st.ssd, st.esd, a3⟩])

/-- `Decoder.handle_reg_0x01` (src/pd.py lines 508-519): minutes register. -/
def handle_reg_0x01 (st : DS) : Except String (DS × List Annot) := do
  let r7 ← put_bit_reserve st 7
  let b ← bytesAt st 0
  let minute : Int := (bcd2int (b &&& 0x7f) : Int)
  let a1 ← compose_annot (S (bitsTab AnnBits_MINUTE)) [.i minute] [] []
  let p1 ← put_data st 6 0 AnnBits_MINUTE a1
  let a2 ← compose_annot (S (registersTab AnnRegs_MINUTE)) [] [] (S (format_action st))
  .ok ({ st with minute := minute },
       [r7, p1, ⟨AnnRegs_MINUTE, st.ssd, st.esd, a2⟩])

/-- `Decoder.handle_reg_0x02` (src/pd.py lines 521-564): hours register with
12h/24h branching.  In 12h mode the hour bits annotation is emitted under the
`AnnBits.MODE` row, exactly as in the source (line 550). -/
def handle_reg_0x02 (st : DS) : Except String (DS × List Annot) := do
  let r7 ← put_bit_reserve st 7
  let b ← bytesAt st 0
  if b &&& (1 <<< 6) ≠ 0 then
    let a1 ← compose_annot (S (bitsTab AnnBits_MODE)) [.s "12h"] [] []
    let p1 ← put_data st 6 6 AnnBits_MODE a1
    let pm : Int := if b &&& (1 <<< 5) ≠ 0 then 1 else 0
    let pm_l := if pm ≠ 0 then "PM" else "AM"
    let pm_s := pyUpper (pyTake pm_l 1)
    let a2 ← compose_annot (S (bitsTab AnnBits_AMPM)) [.i pm, .s pm_l, .s pm_s] [] []
    let p2 ← put_data st 5 5 AnnBits_AMPM a2
    let h0 : Int := (bcd2int (b &&& 0x1f) : Int)
    let h1 := h0 % 12
    let h2 := if pm ≠ 0 then h1 + 12 else h1
    let a3 ← compose_annot (S (bitsTab AnnBits_HOUR)) [.i h2] [] []
    let p3 ← put_data st 4 0 AnnBits_MODE a3
    let a4 ← compose_annot (S (registersTab AnnRegs_HOUR)) [] [] (S (format_action st))
    .ok ({ st with hour := h2 },
         [r7, p1, p2, p3, ⟨AnnRegs_HOUR, st.ssd, st.esd, a4⟩])
  else
    let a1 ← compose_annot (S (bitsTab AnnBits_MODE)) [.s "24h"] [] []
    let p1 ← put_data st 6 6 AnnBits_MODE a1
    let h : Int := (bcd2int (b &&& 0x3f) : Int)
    let a2 ← compose_annot (S (bitsTab AnnBits_HOUR)) [.i h] [] []
    let p2 ← put_data st 5 0 AnnBits_MODE a2
    let a3 ← compose_annot (S (registersTab AnnRegs_HOUR)) [] [] (S (format_action st))
    .ok ({ st with hour := h },
         [r7, p1, p2, ⟨AnnRegs_HOUR, st.ssd, st.esd, a3⟩])

/-- `Decoder.handle_reg_0x03` (src/pd.py lines 566-593): weekday register,
rebased to the configured start weekday. The index search loop defaults to 0
when the option value is not found in the `weekdays` tuple. -/
def handle_reg_0x03 (o : Options) (st : DS) : Except String (DS × List Annot) := do
  let r7 ← put_bit_reserve st 7
  let r6 ← put_bit_reserve st 6
  let r5 ← put_bit_reserve st 5
  let r4 ← put_bit_reserve st 4
  let r3 ← put_bit_reserve st 3
  let b ← bytesAt st 0
  let w : Int := (bcd2int (b &&& 0x07) : Int)
  let startIdx : Int :=
    match weekdaysList.findIdx? (fun x => x == o.start_weekday) with
    | some i => (i : Int)
    | none => 0
  let eff := (startIdx + w - 1) % 7
  let wdname ← pyIndex weekdaysList eff
  let a1 ← compose_annot (S (bitsTab AnnBits_WEEKDAY)) [.s wdname] [] []
  let p1 ← put_data st 2 0 AnnBits_WEEKDAY a1
  let a2 ← compose_annot (S (registersTab AnnRegs_WEEKDAY)) [] [] (S (format_action st))
  .ok ({ st with weekday := eff },
       [r7, r6, r5, r4, r3, p1, ⟨AnnRegs_WEEKDAY, st.ssd, st.esd, a2⟩])

/-- `Decoder.handle_reg_0x04` (src/pd.py lines 595-607): day register. -/
def handle_reg_0x04 (st : DS) : Except String (DS × List Annot) := do
  let r7 ← put_bit_reserve st 7
  let r6 ← put_bit_reserve st 6
  let b ← bytesAt st 0
  let day : Int := (bcd2int (b &&& 0x3f) : Int)
  let a1 ← compose_annot (S (bitsTab AnnBits_DAY)) [.i day] [] []
  let p1 ← put_data st 5 0 AnnBits_DAY a1
  let a2 ← compose_annot (S (registersTab AnnRegs_DAY)) [] [] (S (format_action st))
  .ok ({ st with day := day },
       [r7, r6, p1, ⟨AnnRegs_DAY, st.ssd, st.esd, a2⟩])

/-- `Decoder.handle_reg_0x05` (src/pd.py lines 609-621): month register.  The
annotation value is `months[self.month]`: a BCD-decoded month above 12 indexes
past the end of the 13-element `months` tuple and raises `IndexError`. -/
def handle_reg_0x05 (st : DS) : Except String (DS × List Annot) := do
  let r7 ← put_bit_reserve st 7
  let r6 ← put_bit_reserve st 6
  let r5 ← put_bit_reserve st 5
  let b ← bytesAt st 0
  let month : Int := (bcd2int (b &&& 0x1f) : Int)
  let mname ← pyIndex monthsList month
  let a1 ← compose_annot (S (bitsTab AnnBits_MONTH)) [.s mname] [] []
  let p1 ← put_data st 4 0 AnnBits_MONTH a1
  let a2 ← compose_annot (S (registersTab AnnRegs_MONTH)) [] [] (S (format_action st))
  .ok ({ st with month := month },
       [r7, r6, r5, p1, ⟨AnnRegs_MONTH, st.ssd, st.esd, a2⟩])

/-- `Decoder.handle_reg_0x06` (src/pd.py lines 623-638): year register,
century-adjusted by adding 2000. -/
def handle_reg_0x06 (st : DS) : Except String (DS × List Annot) := do
  let b ← bytesAt st 0
  let year : Int := (bcd2int (b &&& 0xff) : Int) + 2000
  let a1 ← compose_annot (S (bitsTab AnnBits_YEAR)) [.i year] [] []
  let p1 ← put_data st 7 0 AnnBits_YEAR a1
  let a2 ← compose_annot (S (registersTab AnnRegs_YEAR)) [] [] (S (format_action st))
  .ok ({ st with year := year },
       [p1, ⟨AnnRegs_YEAR, st.ssd, st.esd, a2⟩])

/-- `Decoder.handle_reg_0x07` (src/pd.py lines 640-672): control register.
The rate-select annotation list is the concatenation `annots.extend(...)` of
two separately sorted `compose_annot` results (Hz then kHz); the combined
list is *not* re-sorted. -/
def handle_reg_0x07 (st : DS) : Except String (DS × List Annot) := do
  let r6 ← put_bit_reserve st 6
  let r5 ← put_bit_reserve st 5
  let r3 ← put_bit_reserve st 3
  let r2 ← put_bit_reserve st 2
  let b ← bytesAt st 0
  let out : Int := if b &&& (1 <<< 7) ≠ 0 then 1 else 0
  let a1 ← compose_annot (S (bitsTab AnnBits_OUT)) [.i out] [] []
  let p1 ← put_data st 7 7 AnnBits_OUT a1
  let sqwe : Int := if b &&& (1 <<< 4) ≠ 0 then 1 else 0
  let sqwe_l := (if sqwe ≠ 0 then "en" else "dis") ++ "abled"
  let sqwe_s := pyUpper (pyTake sqwe_l 1)
  let a2 ← compose_annot (S (bitsTab AnnBits_SQWE))
            [.i sqwe, .s sqwe_l, .s sqwe_s] [] []
  let p2 ← put_data st 4 4 AnnBits_SQWE a2
  let rate := ratesFn (b &&& 0x03)
  let aHz ← compose_annot (S (bitsTab AnnBits_RS0)) [.i (rate : Int)] [.s "Hz"] []
  let rateK := rate / 1000
  let aKHz ← compose_annot (S (bitsTab AnnBits_RS0)) [.i (rateK : Int)] [.s "kHz"] []
  let p3 ← put_data st 1 0 AnnBits_RS0 (aHz ++ aKHz)
  let a4 ← compose_annot (S (registersTab AnnRegs_CONTROL)) [] [] (S (format_action st))
  .ok (st, [r6, r5, r3, r2, p1, p2, p3, ⟨AnnRegs_CONTROL, st.ssd, st.esd, a4⟩])

/-- `Decoder.handle_reg_0x3f` (src/pd.py lines 674-683): NVRAM byte, rendered
in the configured radix. -/
def handle_reg_0x3f (o : Options) (st : DS) : Except String (DS × List Annot) := do
  let b ← bytesAt st 0
  let v ← format_data o b
  let a1 ← compose_annot (S (bitsTab AnnBits_NVRAM)) [.s v] [] []
  let p1 ← put_data st 7 0 AnnBits_NVRAM a1
  let a2 ← compose_annot (S (registersTab AnnRegs_NVRAM)) [] [] (S (format_action st))
  .ok (st, [p1, ⟨AnnRegs_NVRAM, st.ssd, st.esd, a2⟩])

/-- The register value actually dispatched on by `Decoder.handle_reg`
(src/pd.py line 481): pointers at or above `NvRAM.MIN` collapse to
`NvRAM.MAX`. -/
def regDispatch (r : Int) : Int :=
  if r < NvRAM_MIN then r else NvRAM_MAX

/-- The register pointer auto-increment with rollover of `Decoder.handle_reg`
(src/pd.py lines 484-486). -/
def regNext (r : Int) : Int :=
  if r + 1 > NvRAM_MAX then 0 else r + 1

/-- The list of the first `n` register pointer values starting from `r`,
stepping with `regNext`. -/
def regTrace (r : Int) : Nat → List Int
  | 0 => []
  | n + 1 => r :: regTrace (regNext r) n

/-- `Decoder.handle_reg` (src/pd.py lines 474-487): dispatch via the
`getattr(self, "handle_reg_{:#04x}".format(reg))` name lookup — an
`AttributeError` when the collapsed register value has no handler (e.g. the
initial pointer value -1) — then pointer auto-increment and data-cache
clearing. -/
def handle_reg (o : Options) (st : DS) : Except String (DS × List Annot) := do
  let rd := regDispatch st.reg
  let (st2, anns) ←
    if rd = 0 then handle_reg_0x00 st
    else if rd = 1 then handle_reg_0x01 st
    else if rd = 2 then handle_reg_0x02 st
    else if rd = 3 then handle_reg_0x03 o st
    else if rd = 4 then handle_reg_0x04 st
    else if rd = 5 then handle_reg_0x05 st
    else if rd = 6 then handle_reg_0x06 st
    else if rd = 7 then handle_reg_0x07 st
    else if rd = 0x3f then handle_reg_0x3f o st
    else .error "AttributeError: Decoder object has no such handler attribute"
  .ok (clear_data { st2 with reg := regNext st.reg }, anns)

/-- The `dt_str` computation of `Decoder.output_datetime` (src/pd.py lines
438-452).  The format arguments are numbered like the time-keeping registers:
0=second, 1=minute, 2=hour, 3=weekday name, 4=day, 5=month, 6=year.  Note the
ANSI branch interpolates `{6:04d}-{4:02d}-{5:02d}`, i.e. year-DAY-MONTH.
The weekday name argument `weekdays[self.weekday]` is evaluated for every
format (Python evaluates call arguments eagerly). -/
def format_dt (o : Options) (st : DS) : Except String String := do
  let wd ← pyIndex weekdaysList st.weekday
  if o.date_format = "European" then
    .ok (wd ++ " " ++ pad2 st.day ++ "." ++ pad2 st.month ++ "." ++ pad4 st.year
         ++ " " ++ pad2 st.hour ++ ":" ++ pad2 st.minute ++ ":" ++ pad2 st.second)
  else if o.date_format = "American" then
    .ok (wd ++ ", " ++ pad2 st.month ++ "/" ++ pad2 st.day ++ "/" ++ pad4 st.year
         ++ " " ++ pad2 st.hour ++ ":" ++ pad2 st.minute ++ ":" ++ pad2 st.second)
  else if o.date_format = "ANSI" then
    .ok (pad4 st.year ++ "-" ++ pad2 st.day ++ "-" ++ pad2 st.month
         ++ "T" ++ pad2 st.hour ++ ":" ++ pad2 st.minute ++ ":" ++ pad2 st.second)
  else
    .ok "Unknown format"

/-- `Decoder.output_datetime` (src/pd.py lines 431-456): the composite
date-time annotation spanning the transaction, prefixed by the recent
read/write action. -/
def output_datetime (o : Options) (st : DS) : Except String (List Annot) := do
  let dt_str ← format_dt o st
  let annots ← compose_annot (S (infoTab AnnInfo_DATETIME)) [.s dt_str] []
                 (S (format_action st))
  .ok [⟨AnnInfo_DATETIME, st.ssb, st.es, annots⟩]

/-- One I2C event kind as delivered by the parent `i2c` decoder. -/
inductive Cmd where
  | start
  | startRepeat
  | stop
  | addrWrite (b : Nat)
  | addrRead (b : Nat)
  | dataWrite (b : Nat)
  | dataRead (b : Nat)
  | bitsPkt (l : List (Nat × Nat × Nat))
deriving Repr, DecidableEq

/-- One input event: sample span plus command, the arguments of
`Decoder.decode(startsample, endsample, data)`. -/
structure Ev where
  ss : Nat
  es : Nat
  cmd : Cmd
deriving Repr, DecidableEq

/-- `Decoder.decode` (src/pd.py lines 685-748): process one event, returning
the updated state and the annotations emitted for this event, or the Python
exception that the source would raise. -/
def decodeEvent (o : Options) (st0 : DS) (ev : Ev) :
    Except String (DS × List Annot) :=
  let st := { st0 with ss := ev.ss, es := ev.es }
  match ev.cmd with
  | .bitsPkt l => .ok ({ st with bits := l ++ st.bits }, [])
  | cmd =>
    if st.state = "IDLE" then
      match cmd with
      | .start => .ok ({ st with ssb := st.ss, state := "ADDRESS SLAVE" }, [])
      | _ => .ok (st, [])
    else if st.state = "ADDRESS SLAVE" then
      match cmd with
      | .addrWrite b => do
          let (okAddr, anns) ← check_addr o st b
          if okAddr then
            let st2 := collect_data st b
            let (st3, anns2) ← handle_addr st2
            .ok ({ st3 with write := true, state := "REGISTER ADDRESS" },
                 anns ++ anns2)
          else
            .ok ({ st with state := "IDLE" }, anns)
      | .addrRead b => do
          let (okAddr, anns) ← check_addr o st b
          if okAddr then
            let st2 := collect_data st b
            let (st3, anns2) ← handle_addr st2
            .ok ({ st3 with write := false, state := "REGISTER DATA" },
                 anns ++ anns2)
          else
            .ok ({ st with state := "IDLE" }, anns)
      | _ => .ok (st, [])
    else if st.state = "REGISTER ADDRESS" then
      match cmd with
      | .dataWrite b =>
          .ok ({ st with reg := (b : Int), state := "REGISTER DATA" }, [])
      | .stop => do
          let anns ← handle_nodata st
          .ok ({ st with state := "IDLE" }, anns)
      | _ => .ok (st, [])
    else if st.state = "REGISTER DATA" then
      match cmd with
      | .dataWrite b => do
          let (st2, anns) ← handle_reg o (collect_data st b)
          .ok ({ st2 with state := "REGISTER DATA" }, anns)
      | .dataRead b => do
          let (st2, anns) ← handle_reg o (collect_data st b)
          .ok ({ st2 with state := "REGISTER DATA" }, anns)
      | .startRepeat => .ok ({ st with state := "ADDRESS SLAVE" }, [])
      | .stop => do
          let anns ← output_datetime o st
          .ok ({ st with state := "IDLE" }, anns)
      | _ => .ok (st, [])
    else
      .ok (st, [])

/-- Feed a list of events through `decodeEvent`, collecting every annotation
emitted before the run either finishes or halts on a raised exception
(annotations emitted by earlier events are already out and are kept). -/
def runEvents (o : Options) : DS → List Ev → List Annot × Except String DS
  | st, [] => ([], .ok st)
  | st, e :: es =>
      match decodeEvent o st e with
      | .ok (st2, anns) =>
          let r := runEvents o st2 es
          (anns ++ r.1, r.2)
      | .error msg => ([], .error msg)

/-! Test fixtures: a concrete bit-span cache (8 cached bits as delivered by
the parent i2c decoder, index 0 = least significant bit), a decoder state in
the data phase holding one collected byte, and concrete event streams. -/

/-- Eight cached bit triples `(bit, startsample, endsample)`. -/
def stdBits : List (Nat × Nat × Nat) :=
  [(0, 80, 90), (1, 70, 80), (0, 60, 70), (0, 50, 60),
   (1, 40, 50), (0, 30, 40), (1, 20, 30), (0, 10, 20)]

/-- A decoder state in the data phase with byte `b` just collected, as
produced by `collect_data` right before `handle_reg` dispatches. -/
def dataState (b : Nat) : DS :=
  { reset0 with
    state := "REGISTER DATA"
    ss := 10
    es := 90
    ssb := 0
    ssd := 10
    esd := 90
    bits := stdBits
    bytes := [b]
    reg := 2 }

/-- Options selecting the ANSI date format. -/
def oANSI : Options :=
  { radix := "Hex", start_weekday := "Monday", date_format := "ANSI" }

/-- A BITS packet for one byte starting at sample `t` (index 0 = LSB). -/
def mkBits (t : Nat) : List (Nat × Nat × Nat) :=
  [(0, t + 70, t + 80), (0, t + 60, t + 70), (0, t + 50, t + 60),
   (0, t + 40, t + 50), (0, t + 30, t + 40), (0, t + 20, t + 30),
   (0, t + 10, t + 20), (0, t, t + 10)]

/-- A complete write transaction: Start, address 0x68, register pointer 0x00,
then the seven time-keeping registers seconds=0x30, minutes=0x45, hours=0x13
(24h mode), weekday=0x02, day=0x31, month=0x12, year=0x23, then Stop. -/
def c1events : List Ev :=
  [⟨0, 5, .start⟩,
   ⟨10, 90, .bitsPkt (mkBits 10)⟩, ⟨10, 90, .addrWrite 0x68⟩,
   ⟨100, 180, .bitsPkt (mkBits 100)⟩, ⟨100, 180, .dataWrite 0x00⟩,
   ⟨200, 280, .bitsPkt (mkBits 200)⟩, ⟨200, 280, .dataWrite 0x30⟩,
   ⟨300, 380, .bitsPkt (mkBits 300)⟩, ⟨300, 380, .dataWrite 0x45⟩,
   ⟨400, 480, .bitsPkt (mkBits 400)⟩, ⟨400, 480, .dataWrite 0x13⟩,
   ⟨500, 580, .bitsPkt (mkBits 500)⟩, ⟨500, 580, .dataWrite 0x02⟩,
   ⟨600, 680, .bitsPkt (mkBits 600)⟩, ⟨600, 680, .dataWrite 0x31⟩,
   ⟨700, 780, .bitsPkt (mkBits 700)⟩, ⟨700, 780, .dataWrite 0x12⟩,
   ⟨800, 880, .bitsPkt (mkBits 800)⟩, ⟨800, 880, .dataWrite 0x23⟩,
   ⟨900, 905, .stop⟩]

/-- Result of decoding `c1events` with ANSI date format. -/
def c1run : List Annot × Except String DS := runEvents oANSI reset0 c1events

/-- Final state of the `c1events` run (the run is error-free). -/
def c1final : DS :=
  match c1run.2 with
  | .ok st => st
  | .error _ => reset0

/-- The `dt_str` the decoder builds at the final Stop of `c1events`. -/
def c1dt : String :=
  match c1run.2 with
  | .ok st =>
      match format_dt oANSI st with
      | .ok s => s
      | .error e => e
  | .error e => e

/-- The single datetime annotation emitted by the `c1events` run. -/
def c1dtAnn : Annot :=
  (c1run.1.filter (fun a => a.row == AnnInfo_DATETIME)).headD ⟨0, 0, 0, []⟩

/-- A read transaction entered with no register pointer ever written: the
register pointer still holds its reset value -1 when the first data byte is
decoded. -/
def c2readEvents : List Ev :=
  [⟨0, 5, .start⟩, ⟨10, 90, .addrRead 0x68⟩, ⟨100, 180, .dataRead 0x00⟩]

/-- A write transaction that points at the month register (0x05) and then
writes data byte 0x13, whose BCD decode is 13 > 12. -/
def c2monthEvents : List Ev :=
  [⟨0, 5, .start⟩, ⟨10, 90, .addrWrite 0x68⟩, ⟨100, 180, .dataWrite 0x05⟩,
   ⟨200, 280, .bitsPkt (mkBits 200)⟩, ⟨200, 280, .dataWrite 0x13⟩]

/-- The address-mismatch scenario: Start, AddressWrite(0x50), Stop. -/
def c6events : List Ev :=
  [⟨0, 5, .start⟩, ⟨10, 90, .addrWrite 0x50⟩, ⟨95, 100, .stop⟩]

/-- The presence-check scenario: Start, AddressWrite(0x68), Stop. -/
def c7events : List Ev :=
  [⟨0, 5, .start⟩, ⟨10, 90, .addrWrite 0x68⟩, ⟨95, 100, .stop⟩]

/-- Result of decoding `c7events` with default options. -/
def c7run : List Annot × Except String DS := runEvents oDef reset0 c7events

/-- Final state string of the `c7events` run. -/
def c7state : String :=
  match c7run.2 with
  | .ok st => st.state
  | .error e => e

/-- The presence-check annotation emitted by the `c7events` run. -/
def c7chkAnn : Annot :=
  (c7run.1.filter (fun a => a.row == AnnInfo_CHECK)).headD ⟨0, 0, 0, []⟩

/-- The internal hour stored by the hours-register handler for data byte `b`
(sentinel -99 if the handler raised; the handler never raises on the data
state, which the claim theorems show since -99 never equals the specified
non-negative value). -/
def hourOf (b : Nat) : Int :=
  match handle_reg_0x02 (dataState b) with
  | .ok p => p.1.hour
  | .error _ => -99

/-- The effective weekday stored by the weekday-register handler for start
weekday `sw` and data byte `b` (sentinel -99 if the handler raised). -/
def weekdayOf (sw : String) (b : Nat) : Int :=
  match handle_reg_0x03 { oDef with start_weekday := sw } (dataState b) with
  | .ok p => p.1.weekday
  | .error _ => -99

/-- The annotations emitted by the control-register handler on byte 0x00. -/
def c9ctrlAnns : List Annot :=
  match handle_reg_0x07 (dataState 0) with
  | .ok p => p.2
  | .error _ => []

/-- The label list of the rate-select annotation emitted by the
control-register handler on byte 0x00. -/
def c9rsLabels : List String :=
  ((c9ctrlAnns.filter (fun a => a.row == AnnBits_RS0)).headD ⟨0, 0, 0, []⟩).labels

/-- A decoder state waiting for the slave address. -/
def addrPhase : DS := { reset0 with state := "ADDRESS SLAVE" }

/-- Stored slave address after a matching AddressWrite(0x68) in the address
phase (sentinel 0 if decoding raised). -/
def c10okAddr : Nat :=
  match decodeEvent oDef addrPhase ⟨10, 90, .addrWrite 0x68⟩ with
  | .ok p => p.1.addr
  | .error _ => 0

set_option maxRecDepth 200000 in
/-- C1: the claim states that with date_format = ANSI the composite datetime
string substitutes the decoded fields into the template YYYY-MM-DDTHH:MM:SS
(year, then month, then day).  The code (src/pd.py line 446) interpolates
`{6:04d}-{4:02d}-{5:02d}` where argument 4 is the day and argument 5 is the
month, so the complete ANSI write transaction `c1events` (day register 0x31,
month register 0x12, year register 0x23) decodes to day=31, month=12,
year=2023 yet emits "2023-31-12T13:45:30" (year-DAY-MONTH), not
"2023-12-31T13:45:30" as the claim requires. -/
theorem spec_c1_ansi_datetime :
    c1final.day = 31 ∧ c1final.month = 12 ∧ c1final.year = 2023
    ∧ c1final.hour = 13 ∧ c1final.minute = 45 ∧ c1final.second = 30
    ∧ c1dt = "2023-31-12T13:45:30"
    ∧ c1dt ≠ "2023-12-31T13:45:30"
    ∧ c1run.1.countP (fun a => a.row == AnnInfo_DATETIME) = 1
    ∧ c1dtAnn.ss = 0 ∧ c1dtAnn.es = 905
    ∧ c1dtAnn.labels =
      ["Write Datetime: 2023-31-12T13:45:30", "Wr Datetime: 2023-31-12T13:45:30",
       "Write Date: 2023-31-12T13:45:30", "W Datetime: 2023-31-12T13:45:30",
       "Write D: 2023-31-12T13:45:30", "Wr Date: 2023-31-12T13:45:30",
       "W Date: 2023-31-12T13:45:30", "Wr D: 2023-31-12T13:45:30",
       "W D: 2023-31-12T13:45:30", "Date", "D"] := by
  refine ⟨rfl, rfl, rfl, rfl, rfl, rfl, rfl, by decide, by decide, rfl, rfl,
    by decide⟩

set_option maxRecDepth 200000 in
/-- C2: the claim states that the decode step is total and never raises.
The code raises: a read transaction entered with the reset register pointer
-1 makes `handle_reg` look up the non-existent attribute
`handle_reg_-0x1` (AttributeError), and a month data byte whose BCD decode
exceeds 12 indexes past the end of the 13-element `months` tuple
(IndexError).  Both runs below halt with the corresponding exception. -/
theorem spec_c2_faults :
    (runEvents oDef reset0 c2readEvents).2 =
      .error "AttributeError: Decoder object has no such handler attribute"
    ∧ (runEvents oDef reset0 c2monthEvents).2 =
      .error "IndexError: list index out of range" := by
  exact ⟨rfl, rfl⟩

set_option maxRecDepth 200000 in
/-- C3: decoding 64 consecutive data bytes starting from pointer 0x00
dispatches to registers 0x00..0x07 and then the 0x3F NVRAM handler for every
pointer 0x08..0x3F, with exactly one pointer wrap; for every starting byte
value the 64-step trace wraps exactly once; and every pointer value at or
above 0x08 collapses to the NVRAM handler. -/
theorem spec_c3_pointer_wrap :
    (regTrace 0 64).map regDispatch =
      ([0, 1, 2, 3, 4, 5, 6, 7] : List Int) ++ List.replicate 56 0x3f
    ∧ (regTrace 0 64).countP (fun r => r + 1 > 0x3f) = 1
    ∧ (∀ p : Fin 256, (regTrace (p.val : Int) 64).countP (fun r => r + 1 > 0x3f) = 1)
    ∧ (∀ r : Int, NvRAM_MIN ≤ r → regDispatch r = NvRAM_MAX) := by
  refine ⟨by decide, by decide, by decide, fun r h => ?_⟩
  unfold regDispatch NvRAM_MIN NvRAM_MAX at *
  rw [if_neg]
  omega

/-- Witness for the hypothesis-bearing conjunct of C3: pointer 0x10 is at or
above NvRAM.MIN and dispatches to the NVRAM handler 0x3f. -/
theorem spec_c3_pointer_wrap_witness :
    NvRAM_MIN ≤ (0x10 : Int) ∧ regDispatch 0x10 = NvRAM_MAX :=
  ⟨by decide, spec_c3_pointer_wrap.2.2.2 0x10 (by decide)⟩

set_option maxRecDepth 200000 in
/-- C4: for every hours-register data byte with bit 6 (12h-mode flag) set,
the stored internal hour is the BCD decode of bits 4-0 modulo 12, plus 12
when bit 5 (PM) is set; with bit 6 clear it is the BCD decode of bits 5-0.
Edge cases: byte 0x72 (BCD hour 12, PM) stores 12 (noon) and byte 0x52
(BCD hour 12, AM) stores 0 (midnight).  The sentinel -99 of `hourOf` never
equals the non-negative right-hand side, so the equations also show the
handler does not raise. -/
theorem spec_c4_hours :
    (∀ b : Fin 256,
      hourOf b.val =
        if b.val &&& 64 ≠ 0 then
          ((bcd2int (b.val &&& 31) : Int)) % 12
            + (if b.val &&& 32 ≠ 0 then 12 else 0)
        else ((bcd2int (b.val &&& 63) : Int)))
    ∧ hourOf 0x72 = 12 ∧ hourOf 0x52 = 0 := by
  refine ⟨by decide, rfl, rfl⟩

set_option maxRecDepth 200000 in
/-- C5: for every weekday-register data byte and every configured start
weekday (the k-th entry of the canonical Monday-first list), the stored
effective weekday is (k + BCD decode of bits 2-0 - 1) mod 7.  With start
weekday Wednesday (index 2): chip weekday 1 maps to index 2 and chip
weekday 7 maps to (2 + 6) mod 7 = 1.  The sentinel -99 of `weekdayOf` never
equals the non-negative right-hand side, so the handler does not raise. -/
theorem spec_c5_weekday :
    (∀ (k : Fin 7) (b : Fin 256),
      weekdayOf (weekdaysList.getD k.val "") b.val =
        ((k.val : Int) + (bcd2int (b.val &&& 7) : Int) - 1) % 7)
    ∧ weekdaysList.getD 2 "" = "Wednesday"
    ∧ weekdayOf "Wednesday" 0x01 = 2
    ∧ weekdayOf "Wednesday" 0x07 = (2 + 6) % 7 := by
  refine ⟨by decide, rfl, rfl, rfl⟩

set_option maxRecDepth 200000 in
/-- C6: the claim states that Start, AddressWrite(0x50), Stop emits exactly
one bad-address annotation, zero register annotations, and returns to Idle.
In the code, `check_addr` passes the integer enumeration constant
`AnnInfo.BADADD` (not its label list) to `compose_annot`; the raw integer
ends up in the candidate list and `sort(key=len)` raises
`TypeError: object of type int has no len()` before `put` is reached.  The
run therefore emits no annotation at all and halts. -/
theorem spec_c6_bad_address :
    runEvents oDef reset0 c6events =
      ([], .error "TypeError: object of type int has no len") := by
  exact rfl

set_option maxRecDepth 200000 in
/-- C7: the sequence Start, AddressWrite(0x68), Stop with no pointer byte
emits the slave-address annotation and exactly one presence-check annotation
(row `AnnInfo.CHECK`, distinct from the warning rows) spanning the whole
transaction (sample 0, the start of Start, to sample 100, the end of Stop),
emits no datetime annotation and no warning, and returns the state machine
to Idle. -/
theorem spec_c7_presence_check :
    c7run.1.map (fun a => (a.row, a.ss, a.es)) =
      [(AnnAddrs_SLAVE, 10, 90), (AnnInfo_CHECK, 0, 100)]
    ∧ c7run.1.countP (fun a => a.row == AnnInfo_CHECK) = 1
    ∧ c7run.1.countP (fun a => a.row == AnnInfo_DATETIME) = 0
    ∧ c7run.1.countP (fun a => a.row == AnnInfo_WARN) = 0
    ∧ c7run.1.countP (fun a => a.row == AnnInfo_BADADD) = 0
    ∧ c7chkAnn.labels = ["Slave presence check", "Slave check", "Check", "Chk", "C"]
    ∧ c7state = "IDLE"
    ∧ AnnInfo_CHECK ≠ AnnInfo_WARN ∧ AnnInfo_CHECK ≠ AnnInfo_BADADD := by
  refine ⟨rfl, by decide, by decide, by decide, by decide, by decide, rfl,
    by decide, by decide⟩

/-- C8 counterexample: the claim states the configuration accepts a `Bin`
radix; the `radix` option's `values` tuple has no `"Bin"` entry and the
`radixes` dict has no `"Bin"` key. -/
theorem spec_c8_counterexample :
    "Bin" ∉ radixOptionValues ∧ radixes "Bin" = none := by
  exact ⟨by decide, rfl⟩

/-- C8 (amended): the configuration accepts exactly the radix values Hex,
Dec and Oct, each mapped to a format mask for raw byte values, and
`format_data` renders a byte accordingly (hex with `0x` prefix, plain
decimal, octal with `0o` prefix). -/
theorem spec_c8_radix :
    radixOptionValues = ["Hex", "Dec", "Oct"]
    ∧ radixes "Hex" = some "\x7b:#02x\x7d"
    ∧ radixes "Dec" = some "\x7b:#d\x7d"
    ∧ radixes "Oct" = some "\x7b:#o\x7d"
    ∧ format_data oDef 0x50 = .ok "0x50"
    ∧ format_data { oDef with radix := "Dec" } 0x50 = .ok "80"
    ∧ format_data { oDef with radix := "Oct" } 0x50 = .ok "0o120" := by
  exact ⟨rfl, rfl, rfl, rfl, rfl, rfl, rfl⟩

set_option maxRecDepth 200000 in
/-- C9 counterexample: the claim states every emitted annotation carries a
label list sorted by length descending.  The rate-select annotation emitted
by the control-register handler (`handle_reg_0x07`, byte 0x00) concatenates
two separately sorted `compose_annot` results via `annots.extend(...)`
without re-sorting: the short tail "RS" of the Hz list is followed by the
long head "Rate select bits: 0kHz" of the kHz list. -/
theorem spec_c9_counterexample :
    c9rsLabels =
      ["Rate select bits: 1Hz", "Rate select bits: 1", "Rate select: 1Hz",
       "Rate select: 1", "Rate: 1Hz", "Rate: 1", "RS: 1Hz", "RS: 1",
       "Rate", "RS",
       "Rate select bits: 0kHz", "Rate select bits: 0", "Rate select: 0kHz",
       "Rate select: 0", "Rate: 0kHz", "RS: 0kHz", "Rate: 0", "RS: 0",
       "Rate", "RS"]
    ∧ ¬ List.Sorted lenDescRel c9rsLabels := by
  refine ⟨by decide, by decide⟩

/-- C9 (amended): every label list returned by `compose_annot` is sorted by
string length in descending order, deterministically, for every combination
of label list, value, unit and action prefix; only the rate-select
annotation, which concatenates two such lists, is not globally sorted. -/
theorem spec_c9_sorted (label value unit action : List PyVal)
    (out : List String)
    (h : compose_annot label value unit action = .ok out) :
    List.Sorted lenDescRel out := by
  unfold compose_annot at h
  cases hs : strListOf (composeCore label value unit action) with
  | ok l =>
      rw [hs] at h
      cases h
      exact List.sorted_insertionSort lenDescRel l
  | error e =>
      rw [hs] at h
      cases h

/-- Witness for C9 (amended) at a concrete input. -/
theorem spec_c9_sorted_witness :
    List.Sorted lenDescRel ["ab: 1", "c: 1", "ab", "c"] :=
  spec_c9_sorted (S ["ab", "c"]) [PyVal.s "1"] [] []
    ["ab: 1", "c: 1", "ab", "c"] rfl

set_option maxRecDepth 200000 in
/-- C10: the claim states the emitted bad-address annotation embeds the
previously stored slave address (0x68 after reset), not the received byte.
The stored address is indeed what `check_addr` formats (`format_data` of
`self.addr`, giving "0x68", not "0x50"), and it is updated only by
`handle_addr` after a successful check; but the faulty `compose_annot` call
raises `TypeError` before any bad-address annotation is emitted, so no
annotation embeds any value at all. -/
theorem spec_c10_stored_addr :
    reset0.addr = 0x68
    ∧ format_data oDef reset0.addr = .ok "0x68"
    ∧ format_data oDef 0x50 = .ok "0x50"
    ∧ check_addr oDef addrPhase 0x50 =
        .error "TypeError: object of type int has no len"
    ∧ check_addr oDef addrPhase 0x68 = .ok (true, [])
    ∧ decodeEvent oDef addrPhase ⟨10, 90, .addrWrite 0x50⟩ =
        .error "TypeError: object of type int has no len"
    ∧ c10okAddr = 0x68 := by
  exact ⟨rfl, rfl, rfl, rfl, rfl, rfl, rfl⟩
